import Mathlib

/-!
Shallow embedding of the FreeCAD Render workbench rendering core
(`Render.py` and `renderers/Povray.py`): data model, view dispatcher,
project pipeline and template merge, together with theorems checking the
specification's claims against this embedding.

Conventions of the embedding:
* Python strings holding rendering text are modelled as `List Char`.
* Machine floats are modelled as exact rationals (`ℚ`).
* A Python attribute that may be absent (so that access raises
  `AttributeError`) is modelled as an `Option` field; `none` models the
  absent/`None` case.
* Fallible code returns `Except PyExc`; an `Except.error` value models a
  Python exception escaping the modelled piece of code.
* External collaborators that are out of scope for the core (the GUI,
  the geometry kernel's tessellation, the host document store, the
  `camera` helper module which is not part of the analysed sources) are
  modelled as parameters of a `RenderEnv` record.
-/

namespace RenderWB

/-- Kinds of Python exception raised by the modelled code paths. -/
inductive PyExc where
  | attributeError
  | typeError
  | assertionError
  | keyError
  | moduleNotFoundError
  deriving DecidableEq

/-- Exception kinds caught by the `except (AttributeError, TypeError,
AssertionError)` clause at the dispatch boundary of
`RendererHandler.get_rendering_string` (Render.py, line 810). -/
def caughtAtBoundary : PyExc → Bool
  | PyExc.attributeError => true
  | PyExc.typeError => true
  | PyExc.assertionError => true
  | _ => false

/-- A 3D vector with exact rational coordinates (models `App.Vector`). -/
structure Vec3 where
  x : ℚ
  y : ℚ
  z : ℚ
  deriving DecidableEq

/-- Vector addition (models `App.Vector.add`). -/
def Vec3.add (a b : Vec3) : Vec3 :=
  ⟨a.x + b.x, a.y + b.y, a.z + b.z⟩

/-- Scalar multiplication (models `App.Vector.multiply`). -/
def Vec3.smul (a : Vec3) (k : ℚ) : Vec3 :=
  ⟨a.x * k, a.y * k, a.z * k⟩

/-- A rotation, modelled as a 3×3 matrix (models `App.Rotation` as an
orientation primitive applied through `multVec`). -/
structure Rot where
  m11 : ℚ
  m12 : ℚ
  m13 : ℚ
  m21 : ℚ
  m22 : ℚ
  m23 : ℚ
  m31 : ℚ
  m32 : ℚ
  m33 : ℚ
  deriving DecidableEq

/-- Matrix-vector product (models `App.Rotation.multVec`). -/
def Rot.multVec (r : Rot) (v : Vec3) : Vec3 :=
  ⟨r.m11 * v.x + r.m12 * v.y + r.m13 * v.z,
   r.m21 * v.x + r.m22 * v.y + r.m23 * v.z,
   r.m31 * v.x + r.m32 * v.y + r.m33 * v.z⟩

/-- A placement: position plus rotation (models `App.Placement`). -/
structure Placement where
  base : Vec3
  rot : Rot
  deriving DecidableEq

/-- An axis-aligned bounding box (models a valid `App.BoundBox`). -/
structure BBox where
  xMin : ℚ
  xMax : ℚ
  yMin : ℚ
  yMax : ℚ
  zMin : ℚ
  zMax : ℚ
  deriving DecidableEq

/-- Union of two bounding boxes (models `App.BoundBox.add` on valid boxes). -/
def bboxUnion (a b : BBox) : BBox :=
  ⟨min a.xMin b.xMin, max a.xMax b.xMax,
   min a.yMin b.yMin, max a.yMax b.yMax,
   min a.zMin b.zMin, max a.zMax b.zMax⟩

/-- Squared diagonal length of a bounding box.  The host API value
`BoundBox.DiagonalLength` is the square root of this quantity. -/
def diagSq (b : BBox) : ℚ :=
  (b.xMax - b.xMin) ^ 2 + (b.yMax - b.yMin) ^ 2 + (b.zMax - b.zMin) ^ 2

/-- Whether the character list `l` begins with `p` (helper for the model of
Python's substring test). -/
def beginsWith : List Char → List Char → Bool
  | _, [] => true
  | [], _ :: _ => false
  | c :: cs, p :: ps => if c = p then beginsWith cs ps else false

/-- Model of Python's `pat in l` substring test on strings. -/
def containsSeq (l pat : List Char) : Bool :=
  match l with
  | [] => beginsWith [] pat
  | _ :: rest => beginsWith l pat || containsSeq rest pat

/-- Split a character list on a separator character; models Python's
`str.split(sep)` (and the line structure that `re.`-substitution with a
`.*MARKER.*` pattern operates on, for `sep = newline`). -/
def splitOnChar (sep : Char) : List Char → List (List Char)
  | [] => [[]]
  | c :: cs =>
    match splitOnChar sep cs with
    | [] => [[]]
    | l :: ls => if c = sep then [] :: l :: ls else (c :: l) :: ls

/-- Join character lists with a separator; models Python's `sep.join`. -/
def joinWith (sep : Char) : List (List Char) → List Char
  | [] => []
  | [l] => l
  | l :: ls => l ++ sep :: joinWith sep ls

/-- Split a text into its lines (on the newline character). -/
def splitNl (l : List Char) : List (List Char) :=
  splitOnChar '\n' l

/-- Join lines with newlines; models `'\n'.join(...)` in `Project.render`. -/
def joinNl (ls : List (List Char)) : List Char :=
  joinWith '\n' ls

/-- Model of Python's `str.strip(c)`: remove every leading and trailing
occurrence of the character `c`. -/
def pyStrip (c : Char) (l : List Char) : List Char :=
  ((l.dropWhile (fun a => a = c)).reverse.dropWhile (fun a => a = c)).reverse

/-- Parsing of a material's `DiffuseColor` entry in
`RendererHandler._render_object` (Render.py, lines 838-841):
`value.strip("(").strip(")").split(",")[:3]`. -/
def parseDiffuse (s : List Char) : List (List Char) :=
  (splitOnChar ',' (pyStrip ')' (pyStrip '(' s))).take 3

/-- The color value handed to `write_object`: either the list of channel
substrings parsed from a material's `DiffuseColor`, or an rgb triple
(`ShapeColor[:3]` or the white fallback `(1.0, 1.0, 1.0)`). -/
inductive PyColor where
  | strList : List (List Char) → PyColor
  | rgb : ℚ → ℚ → ℚ → PyColor
  deriving DecidableEq

/-- A material-carrying document object, as read by `_render_object`:
`hasMaterialDict` models `"Material" in mat.PropertiesList`;
`diffuseColor` and `transparency` model the optional entries of the
`mat.Material` dictionary (the transparency already parsed by `float`). -/
structure MatObj where
  hasMaterialDict : Bool
  diffuseColor : Option (List Char)
  transparency : Option ℚ
  deriving DecidableEq

/-- The view-provider data of a source object (`Source.ViewObject`):
display visibility, optional `ShapeColor` (an rgba quadruple) and optional
`Transparency` (a percentage). -/
structure VObj where
  visibility : Bool
  shapeColor : Option (ℚ × ℚ × ℚ × ℚ)
  transparency : Option ℚ
  deriving DecidableEq

/-- Mesh buffers as consumed by the dispatcher: `points` and `facets`
model `mesh.Topology[0]` and `mesh.Topology[1]`, `normals` models
`mesh.getPointNormals()`. -/
structure MeshData where
  points : List Vec3
  facets : List (ℕ × ℕ × ℕ)
  normals : List Vec3
  deriving DecidableEq

/-- A source document object as accessed through a view's `Source`
reference.  Every attribute that the dispatcher may find missing is an
`Option`.  `proxyType` models `Source.Proxy.type` (`none` when the access
raises `AttributeError`); `sourceMaterial` models `"Material" in
Source.PropertiesList and Source.Material` (present and truthy); `mesh`
models the mesh obtained from the group/Part/Mesh branches of
`_render_object` (`none` when no branch applies, so that `assert mesh`
fails); `shapeBBox` models `Source.Shape.BoundBox` (`none` when the
attribute chain raises `AttributeError`). -/
structure Source where
  name : String
  proxyType : Option String
  sourceMaterial : Option MatObj
  viewObject : Option VObj
  mesh : Option MeshData
  shapeBBox : Option BBox
  location : Option Vec3
  color : Option (ℚ × ℚ × ℚ)
  power : Option ℚ
  placement : Option Placement
  sizeU : Option ℚ
  sizeV : Option ℚ
  aspectRatio : Option ℚ
  deriving DecidableEq

/-- A rendering view: its source object, its own optional material link
(`view.Material`) and its cached rendering text (`view.ViewResult`). -/
structure ViewData where
  source : Source
  material : Option MatObj
  viewResult : List Char
  deriving DecidableEq

/-- An entry of a project's `Group` tree: either a terminal rendering view
or a nested `App::DocumentObjectGroup`. -/
inductive TreeItem where
  | view : ViewData → TreeItem
  | group : List TreeItem → TreeItem

/-- A rendering-engine adapter module as seen through `getattr`: each
contract function is present (`some`) or absent (`none`, so that
`RendererHandler._call_renderer`'s `getattr` raises `AttributeError`). -/
structure RendererModule where
  write_camera : Option (String → Placement → Vec3 → Vec3 → List Char)
  write_object : Option (String → MeshData → PyColor → ℚ → List Char)
  write_pointlight : Option (String → Vec3 → (ℚ × ℚ × ℚ) → ℚ → List Char)
  write_arealight : Option (String → Placement → ℚ → ℚ → (ℚ × ℚ × ℚ) → ℚ → List Char)
  render : Option (String → String → Bool → String → Int → Int → String)

/-- The top-level function names defined by the Povray adapter module
(`renderers/Povray.py`): it defines `write_camera`, `write_object`,
`write_pointlight` and `render`, and nothing else. -/
def povrayDefs : List String :=
  ["write_camera", "write_object", "write_pointlight", "render"]

/-- Whether the Povray module exposes a function of the given name. -/
def povrayHasFunction (f : String) : Bool :=
  povrayDefs.contains f

/-- The five function names of the backend contract (spec §4.1). -/
def backendContract : List String :=
  ["write_camera", "write_object", "write_pointlight", "write_arealight", "render"]

/-- Material resolution of `_render_object` (Render.py, lines 828-834):
the view's own material if truthy, else the source's material property. -/
def resolvedMat (view : ViewData) : Option MatObj :=
  match view.material with
  | some m => some m
  | none => view.source.sourceMaterial

/-- Color candidate read from a material object (lines 836-841). -/
def matColor (mat : Option MatObj) : Option PyColor :=
  match mat with
  | none => none
  | some m =>
    if m.hasMaterialDict then
      match m.diffuseColor with
      | some s => some (PyColor.strList (parseDiffuse s))
      | none => none
    else none

/-- Alpha candidate read from a material object (lines 842-846):
`1.0 - t` when the parsed transparency is positive, else `1.0`. -/
def matAlpha (mat : Option MatObj) : Option ℚ :=
  match mat with
  | none => none
  | some m =>
    if m.hasMaterialDict then
      match m.transparency with
      | some t => some (if 0 < t then 1 - t else 1)
      | none => none
    else none

/-- Python truthiness of the intermediate color value (`if not color`):
`None` and an empty list are falsy. -/
def colorTruthy : Option PyColor → Bool
  | none => false
  | some (PyColor.strList l) => !l.isEmpty
  | some (PyColor.rgb _ _ _) => true

/-- Python truthiness of the intermediate alpha value (`if not alpha`):
`None` and `0.0` are falsy. -/
def alphaTruthy : Option ℚ → Bool
  | none => false
  | some a => decide (a ≠ 0)

/-- Effective color resolution of `_render_object`
(Render.py, lines 827-858). -/
def resolveColor (view : ViewData) : PyColor :=
  let c0 := matColor (resolvedMat view)
  let c1 :=
    match view.source.viewObject with
    | none => c0
    | some vo =>
      if colorTruthy c0 then c0
      else
        match vo.shapeColor with
        | some (r, g, b, _) => some (PyColor.rgb r g b)
        | none => c0
  if colorTruthy c1 then c1.getD (PyColor.rgb 1 1 1) else PyColor.rgb 1 1 1

/-- Effective alpha resolution of `_render_object`
(Render.py, lines 827-860). -/
def resolveAlpha (view : ViewData) : ℚ :=
  let a0 := matAlpha (resolvedMat view)
  let a1 :=
    match view.source.viewObject with
    | none => a0
    | some vo =>
      if alphaTruthy a0 then a0
      else
        match vo.transparency with
        | some t => if 0 < t then some (1 - t / 100) else a0
        | none => a0
  if alphaTruthy a1 then a1.getD 1 else 1

/-- `RendererHandler._render_object` (Render.py, lines 821-889): resolve
color and alpha, resolve and validate the mesh (the three `assert`
statements), then call the module's `write_object`. -/
def renderObject (rm : RendererModule) (name : String) (view : ViewData) :
    Except PyExc (List Char) :=
  let color := resolveColor view
  let alpha := resolveAlpha view
  match view.source.mesh with
  | none => Except.error PyExc.assertionError
  | some m =>
    if m.points.isEmpty || m.facets.isEmpty then Except.error PyExc.assertionError
    else if m.normals.isEmpty then Except.error PyExc.assertionError
    else
      match rm.write_object with
      | none => Except.error PyExc.attributeError
      | some f => Except.ok (f name m color alpha)

/-- `RendererHandler._render_camera` (Render.py, lines 891-912). -/
def renderCamera (rm : RendererModule) (name : String) (view : ViewData) :
    Except PyExc (List Char) :=
  match view.source.aspectRatio with
  | none => Except.error PyExc.attributeError
  | some ar =>
    match view.source.placement with
    | none => Except.error PyExc.attributeError
    | some pos =>
      let target := pos.base.add ((pos.rot.multVec ⟨0, 0, -1⟩).smul ar)
      let updir := pos.rot.multVec ⟨0, 1, 0⟩
      match rm.write_camera with
      | none => Except.error PyExc.attributeError
      | some f => Except.ok (f name pos updir target)

/-- `RendererHandler._render_pointlight` (Render.py, lines 914-937):
location and color are required, `Power` defaults to 60. -/
def renderPointlight (rm : RendererModule) (name : String) (view : ViewData) :
    Except PyExc (List Char) :=
  match view.source.location with
  | none => Except.error PyExc.attributeError
  | some loc =>
    match view.source.color with
    | none => Except.error PyExc.attributeError
    | some col =>
      let pw := view.source.power.getD 60
      match rm.write_pointlight with
      | none => Except.error PyExc.attributeError
      | some f => Except.ok (f name loc col pw)

/-- `RendererHandler._render_arealight` (Render.py, lines 939-964):
placement, color, power, `SizeU` and `SizeV` are all required. -/
def renderArealight (rm : RendererModule) (name : String) (view : ViewData) :
    Except PyExc (List Char) :=
  match view.source.placement with
  | none => Except.error PyExc.attributeError
  | some pl =>
    match view.source.color with
    | none => Except.error PyExc.attributeError
    | some col =>
      match view.source.power with
      | none => Except.error PyExc.attributeError
      | some pw =>
        match view.source.sizeU with
        | none => Except.error PyExc.attributeError
        | some su =>
          match view.source.sizeV with
          | none => Except.error PyExc.attributeError
          | some sv =>
            match rm.write_arealight with
            | none => Except.error PyExc.attributeError
            | some f => Except.ok (f name pl su sv col pw)

/-- Tag for the kind-to-handler `switcher` dictionary. -/
inductive KindTag where
  | object
  | pointlight
  | camera
  | arealight
  deriving DecidableEq

/-- The `switcher` dictionary lookup of `get_rendering_string`
(Render.py, lines 801-808); `none` models the `KeyError` case. -/
def switcherLookup (t : String) : Option KindTag :=
  if t = "Object" then some KindTag.object
  else if t = "PointLight" then some KindTag.pointlight
  else if t = "Camera" then some KindTag.camera
  else if t = "AreaLight" then some KindTag.arealight
  else none

/-- The body of the outer `try` of `get_rendering_string` (Render.py,
lines 791-808): read the kind marker (defaulting to "Object" when
`Source.Proxy.type` raises `AttributeError`), look the handler up in the
`switcher` dictionary (a missing key raises `KeyError`) and run it. -/
def dispatchBody (rm : RendererModule) (view : ViewData) :
    Except PyExc (List Char) :=
  let objtype := view.source.proxyType.getD "Object"
  let name := view.source.name
  match switcherLookup objtype with
  | none => Except.error PyExc.keyError
  | some KindTag.object => renderObject rm name view
  | some KindTag.pointlight => renderPointlight rm name view
  | some KindTag.camera => renderCamera rm name view
  | some KindTag.arealight => renderArealight rm name view

/-- `RendererHandler.get_rendering_string` (Render.py, lines 778-819):
run the dispatch body; `AttributeError`, `TypeError` and `AssertionError`
are caught and turned into the empty string, every other exception
escapes. -/
def get_rendering_string (rm : RendererModule) (view : ViewData) :
    Except PyExc (List Char) :=
  match dispatchBody rm view with
  | Except.ok s => Except.ok s
  | Except.error e =>
    if caughtAtBoundary e then Except.ok [] else Except.error e

/-- The camera marker substring of the template-merge step. -/
def camMarker : List Char := "RaytracingCamera".toList

/-- The content marker substring of the template-merge step. -/
def contentMarker : List Char := "RaytracingContent".toList

/-- Model of `re.sub("(.*MARKER.*)", repl, text)` (Render.py, lines
433-437): since `.` does not match a newline and `.*MARKER.*` greedily
matches a whole line, the substitution replaces every line containing the
marker with the replacement text (the replacement is taken literally;
regex escape processing of the replacement string is not modelled). -/
def reSubAllLines (marker repl text : List Char) : List Char :=
  joinNl ((splitNl text).map fun line =>
    if containsSeq line marker then repl else line)

/-- The template-merge step of `Project.render` (Render.py, lines
429-437): when the camera marker occurs in the template, substitute the
camera text on the camera-marker lines and then the joined object texts
on the content-marker lines; otherwise substitute camera text, a newline
and the joined object texts on the content-marker lines. -/
def mergeTemplate (cam objs template : List Char) : List Char :=
  if containsSeq template camMarker then
    reSubAllLines contentMarker objs (reSubAllLines camMarker cam template)
  else
    reSubAllLines contentMarker (cam ++ '\n' :: objs) template

/-- `Project.all_views` / `all_group_objs` (Render.py, lines 355-368):
flatten the group tree, recursively exploding subgroups and keeping
terminal objects in document order. -/
def all_group_objs : List TreeItem → List TreeItem
  | [] => []
  | TreeItem.view v :: rest => TreeItem.view v :: all_group_objs rest
  | TreeItem.group g :: rest => all_group_objs g ++ all_group_objs rest

/-- One step of the bounding-box accumulation of `Project.write_groundplane`
(Render.py, lines 284-289): `bbox.add(view.Source.Shape.BoundBox)` inside
`try ... except AttributeError: pass`.  A nested group (no `Source`) or a
source without a shape contributes nothing. -/
def bboxAdd (acc : Option BBox) (item : TreeItem) : Option BBox :=
  match item with
  | TreeItem.group _ => acc
  | TreeItem.view v =>
    match v.source.shapeBBox with
    | none => acc
    | some bb =>
      some (match acc with
            | none => bb
            | some a => bboxUnion a bb)

/-- The scene bounding box of `Project.write_groundplane`: accumulated
over the project's direct children `self.fpo.Group` only; `none` models
an invalid (`not bbox.isValid()`) box. -/
def sceneBBox (items : List TreeItem) : Option BBox :=
  items.foldl bboxAdd none

/-- The ground-plane polyline of `Project.write_groundplane` (Render.py,
lines 294-299): the bounding-box rectangle inflated by `margin` on every
side at height 0, closed by repeating the first point.  In the source,
`margin` is `bbox.DiagonalLength / 2`, where `DiagonalLength` is the host
API's square root of `diagSq`. -/
def groundplaneVerts (b : BBox) (margin : ℚ) : List Vec3 :=
  [⟨b.xMin - margin, b.yMin - margin, 0⟩,
   ⟨b.xMax + margin, b.yMin - margin, 0⟩,
   ⟨b.xMax + margin, b.yMax + margin, 0⟩,
   ⟨b.xMin - margin, b.yMax + margin, 0⟩,
   ⟨b.xMin - margin, b.yMin - margin, 0⟩]

/-- The project data relevant to `Project.render`. -/
structure ProjectData where
  renderer : String
  delayedBuild : Bool
  groundPlane : Bool
  outputImage : Option String
  renderWidth : Option Int
  renderHeight : Option Int
  tree : List TreeItem

/-- The external collaborators of a render call, out of scope for the
core and taken as parameters: the importable renderer modules, the
template file's content (`none` when missing), the default-camera source
(Modelled from the spec: the `camera` helper module that builds it is not
among the analysed sources; spec §4.4 step 3 only requires a synthetic
Camera-kind source), the geometry kernel's tessellation of the
ground-plane polygon, the view provider of the temporary ground-plane
object, the host's `BoundBox.DiagonalLength` value, the `mkstemp` path
and the configured command prefix string. -/
structure RenderEnv where
  modules : List (String × RendererModule)
  templateContent : Option (List Char)
  defaultCamSource : Source
  tessellate : List Vec3 → MeshData
  gpViewObj : Option VObj
  diagLen : BBox → ℚ
  tmpPath : String
  cmdPre : String

/-- The synthetic default-camera view of `Project.render` (Render.py,
lines 403-415): a `SimpleNamespace` whose source has `Proxy.type =
"Camera"` and `Name = "Default_Camera"`. -/
def defaultCamView (env : RenderEnv) : ViewData :=
  { source := { env.defaultCamSource with
                proxyType := some "Camera",
                name := "Default_Camera" },
    material := none,
    viewResult := [] }

/-- The temporary ground-plane view built by `Project.write_groundplane`
(Render.py, lines 300-306): a `View` over a `Part::Feature` holding the
face of the inflated polyline.  The feature has no `Proxy.type` (so it
dispatches as an Object) and its mesh is the kernel's tessellation of
that face. -/
def groundplaneView (env : RenderEnv) (bb : BBox) : ViewData :=
  { source := { name := "dummygroundplane1",
                proxyType := none,
                sourceMaterial := none,
                viewObject := env.gpViewObj,
                mesh := some (env.tessellate (groundplaneVerts bb (env.diagLen bb / 2))),
                shapeBBox := none,
                location := none,
                color := none,
                power := none,
                placement := none,
                sizeU := none,
                sizeV := none,
                aspectRatio := none },
    material := none,
    viewResult := [] }

/-- `Project.write_groundplane` (Render.py, lines 268-315): an invalid
scene bounding box yields the empty string, otherwise the temporary view
is dispatched through `get_rendering_string`. -/
def write_groundplane (env : RenderEnv) (rm : RendererModule)
    (proj : ProjectData) : Except PyExc (List Char) :=
  match sceneBBox proj.tree with
  | none => Except.ok []
  | some bb => get_rendering_string rm (groundplaneView env bb)

/-- The per-view string collection of `Project.render` (Render.py, lines
419-423): `get_rdr_string(v) for v in views if v.Source.ViewObject.Visibility`,
where `get_rdr_string` is the dispatcher when `DelayedBuild` is true and
`attrgetter("ViewResult")` otherwise.  A list entry without
`Source.ViewObject` (including a group object, which has no `Source`)
raises `AttributeError`, uncaught at this level. -/
def collectStrings (rm : RendererModule) (delayed : Bool) :
    List TreeItem → Except PyExc (List (List Char))
  | [] => Except.ok []
  | TreeItem.group _ :: _ => Except.error PyExc.attributeError
  | TreeItem.view v :: rest =>
    match v.source.viewObject with
    | none => Except.error PyExc.attributeError
    | some vo =>
      if vo.visibility then
        match (if delayed then get_rendering_string rm v
               else Except.ok v.viewResult) with
        | Except.error e => Except.error e
        | Except.ok s =>
          match collectStrings rm delayed rest with
          | Except.error e => Except.error e
          | Except.ok ss => Except.ok (s :: ss)
      else collectStrings rm delayed rest

/-- `os.path.splitext(path)[0]`: the path without its last extension. -/
def dropLastExt (s : String) : String :=
  let cs := s.toList
  if cs.contains '.' then
    String.mk (((cs.reverse.dropWhile (fun a => a ≠ '.')).drop 1).reverse)
  else s

/-- Observable outcome of a successful `Project.render` call: the returned
image path, whether the template file was read, the recorded `PageResult`
path, whether the merged temporary file was written, the merged scene
text and the collected object strings. -/
structure RenderOutcome where
  img : String
  templateRead : Bool
  pageResult : Option String
  wroteTmp : Bool
  sceneText : List Char
  objStrings : List (List Char)
  deriving DecidableEq

/-- `Project.render` (Render.py, lines 370-486): resolve the backend (a
missing module is reported and yields the empty string with no file
activity), require the template, build and dispatch the default camera,
collect the visible views' strings (recomputed or cached following
`DelayedBuild`), optionally append the ground plane, merge into the
template, record `PageResult` and call the module's `render`. -/
def projectRender (env : RenderEnv) (proj : ProjectData) (ext : Bool) :
    Except PyExc RenderOutcome :=
  match List.lookup proj.renderer env.modules with
  | none =>
    Except.ok { img := "", templateRead := false, pageResult := none,
                wroteTmp := false, sceneText := [], objStrings := [] }
  | some rm =>
    match env.templateContent with
    | none => Except.error PyExc.assertionError
    | some template =>
      match get_rendering_string rm (defaultCamView env) with
      | Except.error e => Except.error e
      | Except.ok cam =>
        match collectStrings rm proj.delayedBuild (all_group_objs proj.tree) with
        | Except.error e => Except.error e
        | Except.ok base =>
          match (if proj.groundPlane then
                   match write_groundplane env rm proj with
                   | Except.error e => Except.error e
                   | Except.ok g => Except.ok (base ++ [g])
                 else Except.ok base) with
          | Except.error e => Except.error e
          | Except.ok objstrings =>
            let renderobjs := joinNl objstrings
            let merged := mergeTemplate cam renderobjs template
            let outPath :=
              match proj.outputImage with
              | some o => if o ≠ "" then o else dropLastExt env.tmpPath ++ ".png"
              | none => dropLastExt env.tmpPath ++ ".png"
            let width := proj.renderWidth.getD 800
            let height := proj.renderHeight.getD 600
            let pre := if env.cmdPre ≠ "" then env.cmdPre ++ " " else ""
            match rm.render with
            | none => Except.error PyExc.attributeError
            | some f =>
              Except.ok { img := f env.tmpPath pre ext outPath width height,
                          templateRead := true,
                          pageResult := some env.tmpPath,
                          wroteTmp := true,
                          sceneText := merged,
                          objStrings := objstrings }

/-! Specification-side definitions, written from the spec's (or a claim's)
words, to be compared with the source-derived definitions above. -/

/-- Modelled from the claim (C2 as stated): substitution of only the
*first* line containing the marker. -/
def subFirstLine (marker repl : List Char) : List (List Char) → List (List Char)
  | [] => []
  | l :: ls =>
    if containsSeq l marker then repl :: ls else l :: subFirstLine marker repl ls

/-- Modelled from the claim (C2 as stated): string-level first-matching-line
substitution. -/
def reSubFirstLine (marker repl text : List Char) : List Char :=
  joinNl (subFirstLine marker repl (splitNl text))

/-- Modelled from the claim (C2 as stated): the merge algorithm with only
the first matching line substituted per marker. -/
def mergeTemplateFirstOnly (cam objs template : List Char) : List Char :=
  if containsSeq template camMarker then
    reSubFirstLine contentMarker objs (reSubFirstLine camMarker cam template)
  else
    reSubFirstLine contentMarker (cam ++ '\n' :: objs) template

/-- Modelled from the spec (C2 amended): replace *every* line containing
the marker with the replacement text. -/
def replaceMarkedLines (marker repl : List Char) : List (List Char) → List (List Char)
  | [] => []
  | l :: ls =>
    (if containsSeq l marker then repl else l) :: replaceMarkedLines marker repl ls

/-- Modelled from the spec (C2 amended): the merge algorithm — camera
marker present: replace every camera-marker line with the camera text,
then every content-marker line of the result with the joined object
texts; camera marker absent: replace every content-marker line with
camera text, newline, joined object texts. -/
def mergeTemplateSpec (cam objs template : List Char) : List Char :=
  if containsSeq template camMarker then
    joinNl (replaceMarkedLines contentMarker objs
      (splitNl (joinNl (replaceMarkedLines camMarker cam (splitNl template)))))
  else
    joinNl (replaceMarkedLines contentMarker (cam ++ '\n' :: objs) (splitNl template))

/-- Alpha candidate from the source's display state (`ViewObject`):
provided when a positive `Transparency` percentage is present. -/
def displayAlpha (view : ViewData) : Option ℚ :=
  match view.source.viewObject with
  | none => none
  | some vo =>
    match vo.transparency with
    | some t => if 0 < t then some (1 - t / 100) else none
    | none => none

/-- Color candidate from the source's display state (`ViewObject`'s
`ShapeColor`, truncated to rgb). -/
def displayColor (view : ViewData) : Option PyColor :=
  match view.source.viewObject with
  | none => none
  | some vo =>
    match vo.shapeColor with
    | some (r, g, b, _) => some (PyColor.rgb r g b)
    | none => none

/-- Modelled from the claim (C6 as stated): field-level precedence in
which each level that *provides* an alpha value overrides the next —
View's own material, else Source's material property, else the display
transparency, else fully opaque. -/
def claimStatedAlpha (view : ViewData) : ℚ :=
  match matAlpha view.material with
  | some a => a
  | none =>
    match matAlpha view.source.sourceMaterial with
    | some a => a
    | none =>
      match displayAlpha view with
      | some a => a
      | none => 1

/-- Modelled from the spec (C6 amended): the material is chosen
object-level (the View's material if set, else the Source's material
property); the alpha is then the first *truthy* value in the chain
chosen-material alpha, display alpha, opaque fallback — an alpha of
exactly 0 counts as missing and falls through. -/
def specAlphaAmended (view : ViewData) : ℚ :=
  let lvl1 := matAlpha (resolvedMat view)
  let lvl2 := displayAlpha view
  if alphaTruthy lvl1 then lvl1.getD 1
  else if alphaTruthy lvl2 then lvl2.getD 1
  else 1

/-- Modelled from the spec (C6 amended): the color is the first truthy
value in the chain chosen-material color, display color, white
fallback. -/
def specColorAmended (view : ViewData) : PyColor :=
  let lvl1 := matColor (resolvedMat view)
  let lvl2 := displayColor view
  if colorTruthy lvl1 then lvl1.getD (PyColor.rgb 1 1 1)
  else if colorTruthy lvl2 then lvl2.getD (PyColor.rgb 1 1 1)
  else PyColor.rgb 1 1 1

mutual

/-- Modelled from the spec (C7): the terminal views below one tree item,
in document order. -/
def itemLeavesSpec : TreeItem → List TreeItem
  | TreeItem.view v => [TreeItem.view v]
  | TreeItem.group g => groupLeavesSpec g

/-- Modelled from the spec (C7): the depth-first, document-ordered list of
terminal views of a group's children. -/
def groupLeavesSpec : List TreeItem → List TreeItem
  | [] => []
  | i :: rest => itemLeavesSpec i ++ groupLeavesSpec rest

end

/-- Whether a tree entry is a terminal view (not a group). -/
def isViewItem : TreeItem → Bool
  | TreeItem.view _ => true
  | TreeItem.group _ => false

/-- The view payloads of a list of tree entries (groups dropped). -/
def viewsOf (items : List TreeItem) : List ViewData :=
  items.filterMap fun i =>
    match i with
    | TreeItem.view v => some v
    | TreeItem.group _ => none

/-- Occurrence count of a view value in a list of views. -/
def countView (v : ViewData) : List ViewData → ℕ
  | [] => 0
  | w :: ws => (if w = v then 1 else 0) + countView v ws

/-- Occurrence count of a view value among the terminal leaves of a
group tree. -/
def leafCount (v : ViewData) : List TreeItem → ℕ
  | [] => 0
  | TreeItem.view w :: rest => (if w = v then 1 else 0) + leafCount v rest
  | TreeItem.group g :: rest => leafCount v g + leafCount v rest

/-- The visibility test applied by `Project.render`'s view comprehension
(`v.Source.ViewObject.Visibility`), as a total Boolean predicate. -/
def visibleView (v : ViewData) : Bool :=
  match v.source.viewObject with
  | some vo => vo.visibility
  | none => false

/-- A tree entry on which the view comprehension cannot raise: a terminal
view whose source has a `ViewObject`. -/
def goodItem : TreeItem → Bool
  | TreeItem.view v => v.source.viewObject.isSome
  | TreeItem.group _ => false

/-- Modelled from the spec (C5): the cached `ViewResult` strings of the
visible views, in order. -/
def cachedVisible : List TreeItem → List (List Char)
  | [] => []
  | TreeItem.view v :: rest =>
    if visibleView v then v.viewResult :: cachedVisible rest else cachedVisible rest
  | TreeItem.group _ :: rest => cachedVisible rest

/-- Rewrite the cached `ViewResult` of every view in a list of tree
entries (used to state that delayed builds ignore the cache). -/
def updateCache (g : ViewData → List Char) : TreeItem → TreeItem
  | TreeItem.view v => TreeItem.view { v with viewResult := g v }
  | TreeItem.group grp => TreeItem.group grp

/-- Modelled from the claim (C8 as stated): the union bounding box of all
*visible* sources' geometry over the flattened view list. -/
def sceneBBoxVisibleSpec (items : List TreeItem) : Option BBox :=
  (all_group_objs items).foldl
    (fun acc item =>
      match item with
      | TreeItem.group _ => acc
      | TreeItem.view v =>
        if visibleView v then
          match v.source.shapeBBox with
          | none => acc
          | some bb =>
            some (match acc with
                  | none => bb
                  | some a => bboxUnion a bb)
        else acc) none

/-! Concrete sample data used by witnesses and counterexamples. -/

/-- A renderer module exposing none of the contract functions. -/
def rmNone : RendererModule :=
  ⟨none, none, none, none, none⟩

/-- A renderer module whose `write_object` returns the one-character
string "x". -/
def rmObjX : RendererModule :=
  { write_camera := none,
    write_object := some fun _ _ _ _ => ['x'],
    write_pointlight := none,
    write_arealight := none,
    render := none }

/-- A small valid mesh: one triangle with aligned normals. -/
def demoMesh : MeshData :=
  ⟨[⟨0, 0, 0⟩, ⟨1, 0, 0⟩, ⟨0, 1, 0⟩], [(0, 1, 2)], [⟨0, 0, 1⟩, ⟨0, 0, 1⟩, ⟨0, 0, 1⟩]⟩

/-- A source with every optional attribute absent. -/
def emptySource : Source :=
  { name := "src", proxyType := none, sourceMaterial := none,
    viewObject := none, mesh := none, shapeBBox := none, location := none,
    color := none, power := none, placement := none, sizeU := none,
    sizeV := none, aspectRatio := none }

/-- A visible display state with no color/transparency overrides. -/
def visVObj : VObj := ⟨true, none, none⟩

/-- An invisible display state. -/
def invisVObj : VObj := ⟨false, none, none⟩

/-- A view whose source carries the unknown kind marker "SunSky". -/
def vUnknownA : ViewData :=
  ⟨{ emptySource with proxyType := some "SunSky" }, none, []⟩

/-- A point-light view whose source has no `Location`. -/
def vPointNoLoc : ViewData :=
  ⟨{ emptySource with proxyType := some "PointLight" }, none, []⟩

/-- A visible view whose source carries the unknown kind marker "Sun". -/
def vUnknownB : ViewData :=
  ⟨{ emptySource with proxyType := some "Sun", viewObject := some visVObj }, none, []⟩

/-- An area-light view. -/
def vArea : ViewData :=
  ⟨{ emptySource with proxyType := some "AreaLight" }, none, []⟩

/-- An object view with a valid mesh and no material/display data. -/
def demoObjView : ViewData :=
  ⟨{ emptySource with mesh := some demoMesh }, none, []⟩

/-- A view whose own material dictionary sets `Transparency` to 1 (a fully
transparent material, so the material-level alpha computes to 0). -/
def cexView6 : ViewData :=
  ⟨{ emptySource with viewObject := some visVObj },
   some ⟨true, none, some 1⟩, []⟩

/-- A bounding box whose diagonal length is exactly 3. -/
def cexBBox : BBox := ⟨0, 1, 0, 2, 0, 2⟩

/-- A source with geometry but an invisible display state. -/
def cexSrc8 : Source :=
  { emptySource with viewObject := some invisVObj, shapeBBox := some cexBBox }

/-- A one-entry scene whose only view is invisible. -/
def cexItems8 : List TreeItem :=
  [TreeItem.view ⟨cexSrc8, none, []⟩]

/-- A project over the invisible-view scene, with the ground plane on. -/
def cexProj8 : ProjectData :=
  { renderer := "Povray", delayedBuild := true, groundPlane := true,
    outputImage := none, renderWidth := none, renderHeight := none,
    tree := cexItems8 }

/-- A project requesting the backend "DoesNotExist" over an empty scene. -/
def proj0 : ProjectData :=
  { renderer := "DoesNotExist", delayedBuild := true, groundPlane := false,
    outputImage := none, renderWidth := none, renderHeight := none,
    tree := [] }

/-- An environment with no importable renderer modules. -/
def env0 : RenderEnv :=
  { modules := [], templateContent := none, defaultCamSource := emptySource,
    tessellate := fun _ => demoMesh, gpViewObj := some visVObj,
    diagLen := fun _ => 3, tmpPath := "tmp", cmdPre := "" }

/-- A visible view carrying the cached rendering text "c". -/
def demoViewVisible : ViewData :=
  ⟨{ emptySource with viewObject := some visVObj }, none, ['c']⟩

/-- A one-view scene for the delayed-build witness. -/
def demoItems5 : List TreeItem :=
  [TreeItem.view demoViewVisible]

/-- A template with two camera-marker lines and one content-marker line. -/
def cexTemplate2 : List Char :=
  "alpha RaytracingCamera one\nbeta RaytracingCamera two\ngamma RaytracingContent three".toList

/-- A camera text sample. -/
def cexCam2 : List Char := "CAMTEXT".toList

/-- An object text sample. -/
def cexObjs2 : List Char := "OBJTEXT".toList

/-- A two-line text containing neither merge marker. -/
def noMarkerText : List Char :=
  "no markers here\nplain second line".toList

/-! Helper lemmas about the string model. -/

theorem beginsWith_append (p : List Char) :
    ∀ l t : List Char, beginsWith l p = true → beginsWith (l ++ t) p = true := by
  induction p with
  | nil => intro l t _; cases l ++ t <;> rfl
  | cons p ps ih =>
    intro l t h
    cases l with
    | nil => exact absurd h (by simp [beginsWith])
    | cons c cs =>
      rw [List.cons_append]
      rw [show beginsWith (c :: cs) (p :: ps)
            = if c = p then beginsWith cs ps else false from rfl] at h
      rw [show beginsWith (c :: (cs ++ t)) (p :: ps)
            = if c = p then beginsWith (cs ++ t) ps else false from rfl]
      by_cases hc : c = p
      · rw [if_pos hc] at h ⊢
        exact ih cs t h
      · rw [if_neg hc] at h
        exact absurd h (by simp)

theorem containsSeq_append_right (pat a b : List Char)
    (h : containsSeq a pat = true) : containsSeq (a ++ b) pat = true := by
  induction a with
  | nil =>
    cases pat with
    | nil => cases b <;> rfl
    | cons p ps => exact absurd h (by simp [containsSeq, beginsWith])
  | cons c cs ih =>
    rw [List.cons_append]
    show (beginsWith (c :: (cs ++ b)) pat || containsSeq (cs ++ b) pat) = true
    have h2 : (beginsWith (c :: cs) pat || containsSeq cs pat) = true := h
    rcases Bool.or_eq_true_iff.mp h2 with hb | hr
    · have := beginsWith_append pat (c :: cs) b hb
      rw [List.cons_append] at this
      rw [this]
      rfl
    · rw [ih hr]
      simp

theorem containsSeq_append_left (pat a b : List Char)
    (h : containsSeq b pat = true) : containsSeq (a ++ b) pat = true := by
  induction a with
  | nil => simpa using h
  | cons c cs ih =>
    rw [List.cons_append]
    show (beginsWith (c :: (cs ++ b)) pat || containsSeq (cs ++ b) pat) = true
    rw [ih]
    simp

theorem splitOnChar_spec (sep : Char) (l : List Char) :
    ∃ p ps, splitOnChar sep l = p :: ps ∧ (∃ t, l = p ++ t) ∧
      ∀ q ∈ ps, ∃ s t, l = s ++ q ++ t := by
  induction l with
  | nil => exact ⟨[], [], rfl, ⟨[], rfl⟩, by intro q hq; cases hq⟩
  | cons c cs ih =>
    obtain ⟨p, ps, hsplit, ⟨t0, ht0⟩, hrest⟩ := ih
    by_cases hc : c = sep
    · refine ⟨[], p :: ps, ?_, ⟨c :: cs, rfl⟩, ?_⟩
      · show (match splitOnChar sep cs with
              | [] => [[]]
              | l :: ls => if c = sep then [] :: l :: ls else (c :: l) :: ls)
            = [] :: p :: ps
        rw [hsplit]
        show (if c = sep then [] :: p :: ps else (c :: p) :: ps) = [] :: p :: ps
        rw [if_pos hc]
      · intro q hq
        cases hq with
        | head => exact ⟨[c], t0, by rw [ht0]; rfl⟩
        | tail _ hq =>
          obtain ⟨s, t, hst⟩ := hrest q hq
          exact ⟨c :: s, t, by rw [hst]; rfl⟩
    · refine ⟨c :: p, ps, ?_, ⟨t0, by rw [ht0]; rfl⟩, ?_⟩
      · show (match splitOnChar sep cs with
              | [] => [[]]
              | l :: ls => if c = sep then [] :: l :: ls else (c :: l) :: ls)
            = (c :: p) :: ps
        rw [hsplit]
        show (if c = sep then [] :: p :: ps else (c :: p) :: ps) = (c :: p) :: ps
        rw [if_neg hc]
      · intro q hq
        obtain ⟨s, t, hst⟩ := hrest q hq
        exact ⟨c :: s, t, by rw [hst]; rfl⟩

theorem splitOnChar_ne_nil (sep : Char) (l : List Char) : splitOnChar sep l ≠ [] := by
  obtain ⟨p, ps, hsplit, _, _⟩ := splitOnChar_spec sep l
  rw [hsplit]
  exact List.cons_ne_nil p ps

theorem joinWith_splitOnChar (sep : Char) (l : List Char) :
    joinWith sep (splitOnChar sep l) = l := by
  induction l with
  | nil => rfl
  | cons c cs ih =>
    rcases h : splitOnChar sep cs with _ | ⟨p, ps⟩
    · exact absurd h (splitOnChar_ne_nil sep cs)
    · rw [h] at ih
      show joinWith sep
          (match splitOnChar sep cs with
           | [] => [[]]
           | l :: ls => if c = sep then [] :: l :: ls else (c :: l) :: ls) = c :: cs
      rw [h]
      show joinWith sep (if c = sep then [] :: p :: ps else (c :: p) :: ps) = c :: cs
      by_cases hc : c = sep
      · rw [if_pos hc]
        show sep :: joinWith sep (p :: ps) = c :: cs
        rw [ih, hc]
      · rw [if_neg hc]
        cases ps with
        | nil =>
          show c :: p = c :: cs
          rw [show joinWith sep [p] = p from rfl] at ih
          rw [ih]
        | cons q qs =>
          show c :: (p ++ sep :: joinWith sep (q :: qs)) = c :: cs
          rw [show joinWith sep (p :: q :: qs)
                = p ++ sep :: joinWith sep (q :: qs) from rfl] at ih
          rw [ih]

theorem containsSeq_of_line (sep : Char) (l line pat : List Char)
    (hline : line ∈ splitOnChar sep l) (h : containsSeq line pat = true) :
    containsSeq l pat = true := by
  obtain ⟨p, ps, hsplit, ⟨t0, ht0⟩, hrest⟩ := splitOnChar_spec sep l
  rw [hsplit] at hline
  cases hline with
  | head =>
    rw [ht0]
    exact containsSeq_append_right pat line t0 h
  | tail _ hq =>
    obtain ⟨s, t, hst⟩ := hrest line hq
    rw [hst]
    exact containsSeq_append_right pat (s ++ line) t
      (containsSeq_append_left pat s line h)

theorem reSubAllLines_not_contains (marker repl text : List Char)
    (h : containsSeq text marker = false) :
    reSubAllLines marker repl text = text := by
  unfold reSubAllLines
  have hmap : (splitNl text).map
      (fun line => if containsSeq line marker then repl else line)
      = (splitNl text).map id := by
    apply List.map_congr_left
    intro line hline
    have hfalse : containsSeq line marker = false := by
      by_contra hcon
      rw [Bool.not_eq_false] at hcon
      have := containsSeq_of_line '\n' text line marker hline hcon
      rw [this] at h
      exact Bool.true_eq_false.mp h
    simp [hfalse]
  rw [hmap, List.map_id]
  exact joinWith_splitOnChar '\n' text

theorem replaceMarkedLines_eq_map (marker repl : List Char) (ls : List (List Char)) :
    replaceMarkedLines marker repl ls =
      ls.map fun l => if containsSeq l marker then repl else l := by
  induction ls with
  | nil => rfl
  | cons l ls ih => simp [replaceMarkedLines, ih]

/-! Theorems settling the claims. -/

/-- C9: the template merge applied to a text containing neither the camera
marker nor the content marker performs no substitution and returns the
text unchanged, so merging twice on already-merged (marker-free) output
equals merging once. -/
theorem C9_merge_idempotent (cam objs text : List Char)
    (h1 : containsSeq text camMarker = false)
    (h2 : containsSeq text contentMarker = false) :
    mergeTemplate cam objs text = text ∧
    mergeTemplate cam objs (mergeTemplate cam objs text) =
      mergeTemplate cam objs text := by
  have hid : mergeTemplate cam objs text = text := by
    unfold mergeTemplate
    rw [if_neg (by simp [h1])]
    exact reSubAllLines_not_contains _ _ _ h2
  refine ⟨hid, ?_⟩
  rw [hid]
  exact hid

/-- C9 witness: the merge is the identity on a concrete marker-free text. -/
theorem C9_merge_idempotent_witness :
    mergeTemplate cexCam2 cexObjs2 noMarkerText = noMarkerText ∧
    mergeTemplate cexCam2 cexObjs2 (mergeTemplate cexCam2 cexObjs2 noMarkerText) =
      mergeTemplate cexCam2 cexObjs2 noMarkerText :=
  C9_merge_idempotent cexCam2 cexObjs2 noMarkerText (by decide) (by decide)

/-- C2 (amended): the merge substitutes *every* line containing a marker
(not only the first); with the camera marker present, every camera-marker
line becomes the camera text and then every content-marker line of the
result becomes the joined object texts; with the camera marker absent,
every content-marker line becomes camera text, newline, joined object
texts.  Stated as a refinement: the source-derived merge equals the
amended specification-worded merge on all inputs. -/
theorem C2_merge_all_lines (cam objs template : List Char) :
    mergeTemplate cam objs template = mergeTemplateSpec cam objs template := by
  unfold mergeTemplate mergeTemplateSpec reSubAllLines
  rw [replaceMarkedLines_eq_map, replaceMarkedLines_eq_map, replaceMarkedLines_eq_map]

/-- C2 counterexample: on a template with two camera-marker lines, the
source merge replaces both lines, so its result differs from the
claim-stated first-match-only merge (and equals the all-lines result). -/
theorem C2_first_only_counterexample :
    mergeTemplate cexCam2 cexObjs2 cexTemplate2 = "CAMTEXT\nCAMTEXT\nOBJTEXT".toList ∧
    mergeTemplate cexCam2 cexObjs2 cexTemplate2 ≠
      mergeTemplateFirstOnly cexCam2 cexObjs2 cexTemplate2 :=
  ⟨by decide, by decide⟩

/-- C3: when the project's renderer name resolves to no backend module,
`Project.render` returns the empty string and performs no file activity:
the template is not read, no `PageResult` is recorded and no temporary
file is written. -/
theorem C3_missing_backend_aborts_clean (env : RenderEnv) (proj : ProjectData)
    (ext : Bool) (h : List.lookup proj.renderer env.modules = none) :
    projectRender env proj ext =
      Except.ok { img := "", templateRead := false, pageResult := none,
                  wroteTmp := false, sceneText := [], objStrings := [] } := by
  unfold projectRender
  rw [h]

/-- C3 witness: rendering with the unknown backend "DoesNotExist". -/
theorem C3_missing_backend_witness :
    projectRender env0 proj0 true =
      Except.ok { img := "", templateRead := false, pageResult := none,
                  wroteTmp := false, sceneText := [], objStrings := [] } :=
  C3_missing_backend_aborts_clean env0 proj0 true rfl

/-- Every exception escaping `_render_object` is of a caught kind (the
three mesh assertions or `getattr`'s `AttributeError`). -/
theorem renderObject_err (rm : RendererModule) (name : String) (view : ViewData)
    (e : PyExc) (h : renderObject rm name view = Except.error e) :
    caughtAtBoundary e = true := by
  unfold renderObject at h
  repeat' split at h
  all_goals first
    | (injection h with h2; rw [← h2]; rfl)
    | exact absurd h (by simp)

/-- Every exception escaping `_render_camera` is an `AttributeError`. -/
theorem renderCamera_err (rm : RendererModule) (name : String) (view : ViewData)
    (e : PyExc) (h : renderCamera rm name view = Except.error e) :
    caughtAtBoundary e = true := by
  unfold renderCamera at h
  repeat' split at h
  all_goals first
    | (injection h with h2; rw [← h2]; rfl)
    | exact absurd h (by simp)

/-- Every exception escaping `_render_pointlight` is an `AttributeError`. -/
theorem renderPointlight_err (rm : RendererModule) (name : String)
    (view : ViewData) (e : PyExc)
    (h : renderPointlight rm name view = Except.error e) :
    caughtAtBoundary e = true := by
  unfold renderPointlight at h
  repeat' split at h
  all_goals first
    | (injection h with h2; rw [← h2]; rfl)
    | exact absurd h (by simp)

/-- Every exception escaping `_render_arealight` is an `AttributeError`. -/
theorem renderArealight_err (rm : RendererModule) (name : String)
    (view : ViewData) (e : PyExc)
    (h : renderArealight rm name view = Except.error e) :
    caughtAtBoundary e = true := by
  unfold renderArealight at h
  repeat' split at h
  all_goals first
    | (injection h with h2; rw [← h2]; rfl)
    | exact absurd h (by simp)

/-- C1 (amended): the dispatch boundary of `get_rendering_string` catches
exactly `AttributeError`, `TypeError` and `AssertionError`, yielding the
empty string for the view; an exception of any other kind propagates —
and the only such uncaught exception the dispatch body can raise is the
`KeyError` of the kind-table lookup on an unknown kind marker (every
handler body raises only caught kinds). -/
theorem C1_boundary_catches_three (rm : RendererModule) (view : ViewData) :
    (∀ s, dispatchBody rm view = Except.ok s →
      get_rendering_string rm view = Except.ok s) ∧
    (∀ e, dispatchBody rm view = Except.error e →
      get_rendering_string rm view =
        if caughtAtBoundary e then Except.ok [] else Except.error e) ∧
    (∀ e, dispatchBody rm view = Except.error e →
      caughtAtBoundary e = true ∨
        (e = PyExc.keyError ∧
         switcherLookup (view.source.proxyType.getD "Object") = none)) := by
  refine ⟨?_, ?_, ?_⟩
  · intro s h
    unfold get_rendering_string
    rw [h]
  · intro e h
    unfold get_rendering_string
    rw [h]
  · intro e h
    unfold dispatchBody at h
    have h2 : (match switcherLookup (view.source.proxyType.getD "Object") with
               | none => Except.error PyExc.keyError
               | some KindTag.object => renderObject rm view.source.name view
               | some KindTag.pointlight => renderPointlight rm view.source.name view
               | some KindTag.camera => renderCamera rm view.source.name view
               | some KindTag.arealight => renderArealight rm view.source.name view)
              = Except.error e := h
    cases hl : switcherLookup (view.source.proxyType.getD "Object") with
    | none =>
      rw [hl] at h2
      injection h2 with h3
      exact Or.inr ⟨h3.symm, rfl⟩
    | some tag =>
      rw [hl] at h2
      cases tag with
      | object => exact Or.inl (renderObject_err rm view.source.name view e h2)
      | pointlight =>
        exact Or.inl (renderPointlight_err rm view.source.name view e h2)
      | camera => exact Or.inl (renderCamera_err rm view.source.name view e h2)
      | arealight =>
        exact Or.inl (renderArealight_err rm view.source.name view e h2)

/-- C1 counterexample: a view whose source carries the kind marker
"SunSky" makes the dispatch raise an uncaught `KeyError` instead of
yielding the empty string, so not every dispatch exception is caught. -/
theorem C1_uncaught_keyerror_counterexample :
    get_rendering_string rmNone vUnknownA = Except.error PyExc.keyError ∧
    get_rendering_string rmNone vUnknownA ≠ Except.ok [] := by
  have h : get_rendering_string rmNone vUnknownA = Except.error PyExc.keyError := rfl
  refine ⟨h, ?_⟩
  rw [h]
  intro hc
  exact Except.noConfusion hc

/-- C1 witness: a point-light view with no `Location` raises
`AttributeError`, which the boundary catches into the empty string. -/
theorem C1_boundary_witness :
    get_rendering_string rmNone vPointNoLoc = Except.ok [] := by
  have h := (C1_boundary_catches_three rmNone vPointNoLoc).2.1 PyExc.attributeError rfl
  simpa using h

/-- C10: a view whose source carries a kind marker that is present but is
none of Object, PointLight, Camera, AreaLight makes `get_rendering_string`
raise an uncaught `KeyError` from the switcher lookup, and a visible such
view aborts the whole view-string collection of the render. -/
theorem C10_unknown_type_aborts (rm : RendererModule) (view : ViewData)
    (t : String) (vo : VObj)
    (hpt : view.source.proxyType = some t)
    (hnot : t ∉ (["Object", "PointLight", "Camera", "AreaLight"] : List String))
    (hvo : view.source.viewObject = some vo)
    (hvis : vo.visibility = true) :
    get_rendering_string rm view = Except.error PyExc.keyError ∧
    ∀ rest, collectStrings rm true (TreeItem.view view :: rest) =
      Except.error PyExc.keyError := by
  have hts : t ≠ "Object" ∧ t ≠ "PointLight" ∧ t ≠ "Camera" ∧ t ≠ "AreaLight" := by
    simp only [List.mem_cons, List.not_mem_nil, or_false] at hnot
    push_neg at hnot
    exact hnot
  have hlook : switcherLookup t = none := by
    unfold switcherLookup
    rw [if_neg hts.1, if_neg hts.2.1, if_neg hts.2.2.1, if_neg hts.2.2.2]
  have hgrs : get_rendering_string rm view = Except.error PyExc.keyError := by
    unfold get_rendering_string dispatchBody
    rw [hpt]
    show (match
            (match switcherLookup t with
             | none => Except.error PyExc.keyError
             | some KindTag.object => renderObject rm view.source.name view
             | some KindTag.pointlight => renderPointlight rm view.source.name view
             | some KindTag.camera => renderCamera rm view.source.name view
             | some KindTag.arealight => renderArealight rm view.source.name view)
          with
          | Except.ok s => Except.ok s
          | Except.error e =>
            if caughtAtBoundary e then Except.ok [] else Except.error e)
        = Except.error PyExc.keyError
    rw [hlook]
    rfl
  refine ⟨hgrs, ?_⟩
  intro rest
  show (match view.source.viewObject with
        | none => Except.error PyExc.attributeError
        | some vo =>
          if vo.visibility then
            match (if true then get_rendering_string rm view
                   else Except.ok view.viewResult) with
            | Except.error e => Except.error e
            | Except.ok s =>
              match collectStrings rm true rest with
              | Except.error e => Except.error e
              | Except.ok ss => Except.ok (s :: ss)
          else collectStrings rm true rest)
      = Except.error PyExc.keyError
  rw [hvo]
  simp only [hvis, if_true]
  rw [hgrs]

/-- C10 witness: a visible view with kind marker "Sun" aborts. -/
theorem C10_unknown_type_witness :
    get_rendering_string rmNone vUnknownB = Except.error PyExc.keyError ∧
    collectStrings rmNone true [TreeItem.view vUnknownB] =
      Except.error PyExc.keyError := by
  have h := C10_unknown_type_aborts rmNone vUnknownB "Sun" visVObj rfl
    (by decide) rfl rfl
  exact ⟨h.1, h.2 []⟩

/-- Dispatch of an area light over a module lacking `write_arealight`:
`_call_renderer`'s `getattr` raises `AttributeError`. -/
theorem renderArealight_no_fn (rm : RendererModule) (name : String)
    (view : ViewData) (hm : rm.write_arealight = none) :
    renderArealight rm name view = Except.error PyExc.attributeError := by
  unfold renderArealight
  cases hpl : view.source.placement with
  | none => rfl
  | some pl =>
    cases hcol : view.source.color with
    | none => rfl
    | some col =>
      cases hpow : view.source.power with
      | none => rfl
      | some pw =>
        cases hsu : view.source.sizeU with
        | none => rfl
        | some su =>
          cases hsv : view.source.sizeV with
          | none => rfl
          | some sv => rw [hm]

/-- C4 (amended): the Povray adapter exposes four of the five contract
functions — `write_camera`, `write_object`, `write_pointlight`, `render` —
but not `write_arealight`; consequently, dispatching an AreaLight view
through a module without `write_arealight` raises `AttributeError` when
the dispatcher resolves the function, which the boundary catches into the
empty string for that view. -/
theorem C4_povray_backend_contract (rm : RendererModule) (view : ViewData)
    (hm : rm.write_arealight = none)
    (ht : view.source.proxyType = some "AreaLight") :
    (["write_camera", "write_object", "write_pointlight", "render"] :
        List String).all povrayHasFunction = true ∧
    povrayHasFunction "write_arealight" = false ∧
    get_rendering_string rm view = Except.ok [] := by
  refine ⟨by decide, by decide, ?_⟩
  have hdisp : dispatchBody rm view = renderArealight rm view.source.name view := by
    unfold dispatchBody
    rw [ht]
    rfl
  unfold get_rendering_string
  rw [hdisp, renderArealight_no_fn rm view.source.name view hm]
  rfl

/-- C4 counterexample: the Povray module does not expose `write_arealight`,
so it does not expose all five functions of the backend contract. -/
theorem C4_povray_counterexample :
    povrayHasFunction "write_arealight" = false ∧
    backendContract.all povrayHasFunction = false := by
  decide

/-- C4 witness: an AreaLight view over a module without `write_arealight`
renders to the empty string. -/
theorem C4_povray_witness :
    get_rendering_string rmNone vArea = Except.ok [] :=
  (C4_povray_backend_contract rmNone vArea rfl rfl).2.2

/-- The dispatcher never reads a view's cached `ViewResult`: its result is
unchanged under any rewrite of the cache field. -/
theorem grs_cache_irrel (rm : RendererModule) (src : Source) (mat : Option MatObj)
    (r r2 : List Char) :
    get_rendering_string rm ⟨src, mat, r⟩ = get_rendering_string rm ⟨src, mat, r2⟩ := rfl

/-- C5: with `DelayedBuild` true the per-view strings are recomputed
through the dispatcher and any cached `ViewResult` is ignored (first
conjunct: rewriting every cache arbitrarily does not change the result);
with `DelayedBuild` false the dispatcher — and hence the renderer module —
is never consulted (second conjunct: the result is the same for any two
modules) and the collected strings are exactly the visible views' cached
`ViewResult` values (third conjunct). -/
theorem C5_delayed_build_policy (rm rm2 : RendererModule)
    (g : ViewData → List Char) (items : List TreeItem) :
    collectStrings rm true (items.map (updateCache g)) =
      collectStrings rm true items ∧
    collectStrings rm false items = collectStrings rm2 false items ∧
    (items.all goodItem = true →
      collectStrings rm false items = Except.ok (cachedVisible items)) := by
  refine ⟨?_, ?_, ?_⟩
  · induction items with
    | nil => rfl
    | cons i rest ih =>
      cases i with
      | group gg => rfl
      | view v =>
        cases v with
        | mk src mat r =>
          simp only [List.map_cons, updateCache, collectStrings]
          cases hvo : src.viewObject with
          | none => rfl
          | some vo =>
            rw [grs_cache_irrel rm src mat (g ⟨src, mat, r⟩) r, ih]
            simp
  · induction items with
    | nil => rfl
    | cons i rest ih =>
      cases i with
      | group gg => rfl
      | view v =>
        simp only [collectStrings]
        cases hvo : v.source.viewObject with
        | none => rfl
        | some vo =>
          rw [ih]
          simp
  · induction items with
    | nil => intro _; rfl
    | cons i rest ih =>
      intro hall
      rw [List.all_cons, Bool.and_eq_true] at hall
      obtain ⟨hi, hrest⟩ := hall
      cases i with
      | group gg => exact absurd hi (by simp [goodItem])
      | view v =>
        simp only [collectStrings, cachedVisible]
        cases hvo : v.source.viewObject with
        | none => rw [goodItem, hvo] at hi; simp at hi
        | some vo =>
          have hvis : visibleView v = vo.visibility := by
            unfold visibleView
            rw [hvo]
          by_cases hv : vo.visibility = true
          · simp [hv, hvis, ih hrest]
          · rw [Bool.not_eq_true] at hv
            simp [hv, hvis, ih hrest]

/-- C5 witness: with `DelayedBuild` false, a one-view visible scene
collects exactly the cached string. -/
theorem C5_delayed_build_witness :
    collectStrings rmNone false demoItems5 = Except.ok [['c']] := by
  have h := (C5_delayed_build_policy rmNone rmNone (fun _ => []) demoItems5).2.2
    (by decide)
  rw [h]
  rfl

/-- The source's alpha resolution equals the amended truthiness-chain
specification. -/
theorem resolveAlpha_eq_spec (view : ViewData) :
    resolveAlpha view = specAlphaAmended view := by
  unfold resolveAlpha specAlphaAmended displayAlpha
  cases hvo : view.source.viewObject with
  | none => simp [alphaTruthy]
  | some vo =>
    by_cases h0 : alphaTruthy (matAlpha (resolvedMat view)) = true
    · simp [h0]
    · cases hvt : vo.transparency with
      | none => simp [hvt, h0, alphaTruthy]
      | some t =>
        by_cases ht : (0 : ℚ) < t
        · simp [hvt, h0, ht]
        · simp [hvt, h0, ht, alphaTruthy]

/-- The source's color resolution equals the amended truthiness-chain
specification. -/
theorem resolveColor_eq_spec (view : ViewData) :
    resolveColor view = specColorAmended view := by
  unfold resolveColor specColorAmended displayColor
  cases hvo : view.source.viewObject with
  | none => simp [colorTruthy]
  | some vo =>
    by_cases h0 : colorTruthy (matColor (resolvedMat view)) = true
    · simp [h0]
    · cases hsc : vo.shapeColor with
      | none => simp [hsc, h0, colorTruthy]
      | some q =>
        obtain ⟨r, g, b, a⟩ := q
        rw [Bool.not_eq_true] at h0
        simp only [hsc, h0, Bool.false_eq_true, if_false]

/-- C6 (amended): for a valid mesh, `write_object` is called with color
and alpha resolved by the precedence chain — the View's material if set,
else the Source's material property (an object-level choice), then per
field the chosen material's value, else the display value, else white /
opaque — where a falsy resolved value (empty color, alpha exactly 0)
counts as missing and falls through to the next level. -/
theorem C6_color_alpha_precedence (rm : RendererModule)
    (f : String → MeshData → PyColor → ℚ → List Char) (name : String)
    (view : ViewData) (m : MeshData)
    (hf : rm.write_object = some f)
    (hm : view.source.mesh = some m)
    (hp : m.points.isEmpty = false)
    (hfa : m.facets.isEmpty = false)
    (hn : m.normals.isEmpty = false) :
    renderObject rm name view =
      Except.ok (f name m (specColorAmended view) (specAlphaAmended view)) := by
  unfold renderObject
  rw [hm]
  simp only [hp, hfa, hn, Bool.or_self, Bool.false_eq_true, if_false, hf,
    resolveColor_eq_spec, resolveAlpha_eq_spec]

/-- C6 counterexample: a View whose own material dictionary carries
`Transparency = 1` resolves, at the material level, to alpha 0; the code
treats this falsy value as missing and falls through to the opaque
fallback 1, while the claim's strict precedence would deliver 0. -/
theorem C6_alpha_falsy_counterexample :
    resolveAlpha cexView6 = 1 ∧ claimStatedAlpha cexView6 = 0 := by
  constructor
  · norm_num [resolveAlpha, cexView6, resolvedMat, matAlpha, alphaTruthy,
      emptySource, visVObj]
  · norm_num [claimStatedAlpha, cexView6, matAlpha, emptySource, visVObj]

/-- C6 witness: a plain object view with a valid mesh renders through
`write_object` with the resolved (fallback) color and alpha. -/
theorem C6_precedence_witness :
    renderObject rmObjX "n" demoObjView = Except.ok ['x'] :=
  C6_color_alpha_precedence rmObjX (fun _ _ _ _ => ['x']) "n" demoObjView
    demoMesh rfl rfl rfl rfl rfl

/-- The flatten of `all_views` equals the depth-first leaf sequence
written from the spec. -/
theorem all_group_objs_eq_spec (items : List TreeItem) :
    all_group_objs items = groupLeavesSpec items := by
  induction items using all_group_objs.induct with
  | case1 => simp [all_group_objs, groupLeavesSpec]
  | case2 v rest ih => simp [all_group_objs, groupLeavesSpec, itemLeavesSpec, ih]
  | case3 g rest ih1 ih2 =>
    simp [all_group_objs, groupLeavesSpec, itemLeavesSpec, ih1, ih2]

/-- Every entry returned by the flatten is a terminal view. -/
theorem all_group_objs_views (items : List TreeItem) :
    (all_group_objs items).all isViewItem = true := by
  induction items using all_group_objs.induct with
  | case1 => simp [all_group_objs]
  | case2 v rest ih => simp [all_group_objs, isViewItem, ih]
  | case3 g rest ih1 ih2 => simp [all_group_objs, ih1, ih2]

theorem countView_append (v : ViewData) (a b : List ViewData) :
    countView v (a ++ b) = countView v a + countView v b := by
  induction a with
  | nil => simp [countView]
  | cons w ws ih =>
    simp only [List.cons_append, countView, List.append_eq, ih, Nat.add_assoc]

/-- The flatten preserves multiplicities: each view value occurs in the
output exactly as often as it occurs as a leaf of the tree. -/
theorem countView_flatten (v : ViewData) (items : List TreeItem) :
    countView v (viewsOf (all_group_objs items)) = leafCount v items := by
  induction items using all_group_objs.induct with
  | case1 => simp [all_group_objs, viewsOf, leafCount, countView]
  | case2 w rest ih =>
    simp only [all_group_objs, viewsOf, List.filterMap_cons] at *
    simp only [leafCount, countView, ih]
  | case3 g rest ih1 ih2 =>
    simp only [all_group_objs, viewsOf, List.filterMap_append] at *
    simp only [leafCount, countView_append, ih1, ih2]

/-- C7: `all_views` on a (cycle-free) group tree returns exactly the
depth-first, document-ordered sequence of terminal views: it equals the
spec-side leaf sequence, contains no group entries, and contains every
leaf occurrence exactly as often as the tree does. -/
theorem C7_all_views_depth_order (items : List TreeItem) (v : ViewData) :
    all_group_objs items = groupLeavesSpec items ∧
    (all_group_objs items).all isViewItem = true ∧
    countView v (viewsOf (all_group_objs items)) = leafCount v items :=
  ⟨all_group_objs_eq_spec items, all_group_objs_views items,
   countView_flatten v items⟩

/-- C8 (amended): the synthesized ground plane is a 5-point closed
polyline at height 0, inflated by the margin (the host-computed
`DiagonalLength / 2`) beyond the accumulated bounding box on every side;
an invalid (empty) accumulated box yields no ground-plane text; and with
the ground-plane option off the render is independent of the ground-plane
machinery (tessellation and diagonal length).  The accumulated box ranges
over the project's *direct children* regardless of visibility — not over
all visible sources, which is the corrected part of the claim. -/
theorem C8_groundplane_geometry (b : BBox) (mrg : ℚ) (env : RenderEnv)
    (rm : RendererModule) (proj : ProjectData) (ext : Bool)
    (t2 : List Vec3 → MeshData) (d2 : BBox → ℚ) :
    ((groundplaneVerts b mrg).length = 5 ∧
     (groundplaneVerts b mrg).head? = some ⟨b.xMin - mrg, b.yMin - mrg, 0⟩ ∧
     (groundplaneVerts b mrg).getLast? = some ⟨b.xMin - mrg, b.yMin - mrg, 0⟩ ∧
     (∀ p ∈ groundplaneVerts b mrg, p.z = 0) ∧
     Vec3.mk (b.xMax + mrg) (b.yMax + mrg) 0 ∈ groundplaneVerts b mrg) ∧
    (sceneBBox proj.tree = none → write_groundplane env rm proj = Except.ok []) ∧
    (proj.groundPlane = false →
      projectRender { env with tessellate := t2, diagLen := d2 } proj ext =
        projectRender env proj ext) := by
  refine ⟨⟨rfl, rfl, rfl, ?_, ?_⟩, ?_, ?_⟩
  · intro p hp
    simp only [groundplaneVerts, List.mem_cons, List.not_mem_nil, or_false] at hp
    rcases hp with rfl | rfl | rfl | rfl | rfl <;> rfl
  · simp [groundplaneVerts]
  · intro h
    unfold write_groundplane
    rw [h]
  · intro h
    have e1 : ({ env with tessellate := t2, diagLen := d2 } : RenderEnv).modules
        = env.modules := rfl
    have e2 : ({ env with tessellate := t2, diagLen := d2 } : RenderEnv).templateContent
        = env.templateContent := rfl
    have e3 : defaultCamView { env with tessellate := t2, diagLen := d2 }
        = defaultCamView env := rfl
    have e4 : ({ env with tessellate := t2, diagLen := d2 } : RenderEnv).tmpPath
        = env.tmpPath := rfl
    have e5 : ({ env with tessellate := t2, diagLen := d2 } : RenderEnv).cmdPre
        = env.cmdPre := rfl
    unfold projectRender
    rw [e1, e2, e3, e4, e5]
    simp only [h, Bool.false_eq_true, if_false]

/-- C8 counterexample: a scene whose only view is invisible still
contributes its geometry to the code's accumulated bounding box, so a
ground-plane text is produced, while the claim's visible-only union
bounding box is empty and predicts no ground-plane text. -/
theorem C8_invisible_included_counterexample :
    write_groundplane env0 rmObjX cexProj8 = Except.ok ['x'] ∧
    sceneBBoxVisibleSpec cexItems8 = none := by
  refine ⟨rfl, ?_⟩
  have hv : visibleView ⟨cexSrc8, none, ([] : List Char)⟩ = false := rfl
  simp [sceneBBoxVisibleSpec, all_group_objs, cexItems8, hv]

/-- C8 witness: the concrete polyline has five points; an empty scene
yields no ground-plane text; and with the option off the pipeline ignores
the ground-plane machinery. -/
theorem C8_groundplane_witness :
    (groundplaneVerts cexBBox (3 / 2)).length = 5 ∧
    write_groundplane env0 rmNone proj0 = Except.ok [] ∧
    projectRender { env0 with tessellate := fun _ => demoMesh, diagLen := fun _ => 0 }
        proj0 true =
      projectRender env0 proj0 true := by
  have h := C8_groundplane_geometry cexBBox (3 / 2) env0 rmNone proj0 true
    (fun _ => demoMesh) (fun _ => 0)
  exact ⟨h.1.1, h.2.1 rfl, h.2.2 rfl⟩

end RenderWB
